import Mathlib

/-!
# Verification of the Endee semantic-search client (`src/main.py`)

Shallow embedding of the ingestion and retrieval pipeline of the
command-line client in `main.py`:

* the health probe `check_health` (lines 13-24),
* the index provisioner `create_index` (lines 30-48),
* the ingestion pipeline `ingest_data` (lines 50-109) together with the
  `id_map.txt` store handling in `main` (lines 198-204),
* the search pipeline and its tolerant result decoder `search`
  (lines 111-188),
* the CLI dispatch in `main` (lines 191-213).

HTTP calls are modelled by passing the outcome of each request (a status
code plus body, or a raised `requests` exception) as an explicit argument;
the embedding model (`model.encode`) is an opaque parameter
`encode : String → List ℚ`.  msgpack-decoded Python values are modelled by
the inductive type `MP`; floating-point scores are modelled as rationals,
which is faithful here because the client only moves score values around
and tests their truthiness — it performs no arithmetic on them.
-/

namespace Endee

/-- A msgpack-decoded Python value, as produced by `msgpack.unpackb`
(line 133).  Dictionaries are association lists with distinct keys (a
Python `dict` cannot hold duplicate keys). -/
inductive MP where
  | int (n : Int)
  | str (s : String)
  | float (q : ℚ)
  | bool (b : Bool)
  | nil
  | arr (xs : List MP)
  | dict (kvs : List (String × MP))

/-- Python truthiness, as used by `if doc_id:` (line 179) and the `or`
fallbacks (lines 172-173): `0`, `0.0`, `""`, `None`, `False` and empty
containers are falsy. -/
def truthy : MP → Bool
  | .int n => n != 0
  | .str s => !s.isEmpty
  | .float q => q != 0
  | .bool b => b
  | .nil => false
  | .arr xs => !xs.isEmpty
  | .dict kvs => !kvs.isEmpty

/-- Python `a or b`: `a` if truthy, else `b`. -/
def pyOr (a b : MP) : MP := if truthy a then a else b

/-- Python `d.get(k)`: the value at `k`, or `None` when absent
(lines 172-173). -/
def dictGet (kvs : List (String × MP)) (k : String) : MP :=
  match kvs.find? (fun p => p.1 == k) with
  | some p => p.2
  | none => .nil

/-- Python `k in d` (line 159). -/
def dictHas (kvs : List (String × MP)) (k : String) : Bool :=
  (kvs.find? (fun p => p.1 == k)).isSome

/-- Python `str(v)` as applied to hit identifiers (lines 177, 180).
Integers render in decimal and strings pass through, the only cases any
decoded hit in this development exercises; the rendering of the remaining
constructors is a fixed placeholder (no claim depends on it). -/
def pyStr : MP → String
  | .int n => toString n
  | .str s => s
  | .float q => toString q
  | .bool b => if b then "True" else "False"
  | .nil => "None"
  | .arr _ => "<list>"
  | .dict _ => "<dict>"

/-- Python `id_map.get(doc_id, "Unknown Content")` (line 181).  The map
is the dict loaded from `id_map.txt` (lines 139-145), taken here as an
association list with distinct keys. -/
def idMapGet (m : List (String × String)) (k : String) : String :=
  match m.find? (fun p => p.1 == k) with
  | some p => p.2
  | none => "Unknown Content"

/-- Outcome of processing one hit in the result loop (lines 163-184):
either a resolved `(id, score, content)` triple (printed at line 182), or
the raw unparsed result (printed at line 184). -/
inductive HitOutcome where
  | resolved (docId : String) (score : MP) (content : String)
  | rawUnparsed (res : MP)

/-- Lines 179-184: test `if doc_id:`, then `doc_id = str(doc_id)` and the
content lookup, else report the raw result. -/
def finishHit (idMap : List (String × String)) (res docId score : MP) : HitOutcome :=
  if truthy docId then
    let d := pyStr docId
    .resolved d score (idMapGet idMap d)
  else .rawUnparsed res

/-- Lines 167-184: resolve one hit.  A mapping reads `id` falling back to
`label`, and `distance` falling back to `score`; a sequence takes
`res[0]` as score and `str(res[1])` as identifier (raising `IndexError`,
modelled as `.error`, when it has fewer than two positions); any other
value leaves `doc_id = None` and is reported raw. -/
def processHit (idMap : List (String × String)) (res : MP) : Except String HitOutcome :=
  match res with
  | .dict kvs =>
      let docId := pyOr (dictGet kvs "id") (dictGet kvs "label")
      let score := pyOr (dictGet kvs "distance") (dictGet kvs "score")
      .ok (finishHit idMap res docId score)
  | .arr [] => .error "IndexError"
  | .arr [_] => .error "IndexError"
  | .arr (s :: i :: _) => .ok (finishHit idMap res (.str (pyStr i)) s)
  | other => .ok (finishHit idMap other .nil .nil)

/-- Lines 159-160: unwrap `results['results']` when the top-level decoded
value is a mapping containing a `results` key. -/
def unwrapResults (v : MP) : MP :=
  match v with
  | .dict kvs => if dictHas kvs "results" then dictGet kvs "results" else v
  | _ => v

/-- Python `for res in results:` (line 163): a list yields its elements,
a dict its keys, a string its characters; any other value raises
`TypeError` (caught by the surrounding `except`). -/
def pyIterate : MP → Except String (List MP)
  | .arr xs => .ok xs
  | .dict kvs => .ok (kvs.map (fun p => .str p.1))
  | .str s => .ok (s.toList.map (fun c => .str (String.mk [c])))
  | _ => .error "TypeError: not iterable"

/-- The result loop `for res in results:` (lines 163-184) over the hit
values, in order.  An exception from any hit aborts the remainder of the
loop (it is caught by the `except` at line 186). -/
def processHits (idMap : List (String × String)) : List MP → Except String (List HitOutcome)
  | [] => .ok []
  | r :: rs =>
      match processHit idMap r with
      | .error e => .error e
      | .ok o =>
          match processHits idMap rs with
          | .error e => .error e
          | .ok os => .ok (o :: os)

/-- Lines 159-184: decode the unpacked response body into per-hit
outcomes, in response order. -/
def decodeResults (idMap : List (String × String)) (v : MP) :
    Except String (List HitOutcome) :=
  match pyIterate (unwrapResults v) with
  | .error e => .error e
  | .ok hits => processHits idMap hits

/-! ## Health probe and transport failures -/

/-- The exception kinds `requests.get`/`requests.post` can raise.  In the
`requests` library, connection refusal, DNS failure and connect-phase
timeouts are (subclasses of) `requests.exceptions.ConnectionError`; a
read timeout (`ReadTimeout`) and the remaining request exceptions are
not. -/
inductive ReqException where
  | connectionRefused
  | dnsFailure
  | connectTimeout
  | readTimeout
  | otherRequestFailure
deriving DecidableEq

/-- Which exceptions the `except requests.exceptions.ConnectionError`
clause at line 22 catches. -/
def isConnectionErr : ReqException → Bool
  | .connectionRefused => true
  | .dnsFailure => true
  | .connectTimeout => true
  | .readTimeout => false
  | .otherRequestFailure => false

/-- Lines 13-24, `check_health`: the argument is the outcome of
`requests.get(".../health")` — a status code, or a raised exception.
`.ok b` models returning `b`; `.error e` models the exception `e`
propagating past the probe (only `ConnectionError` is caught). -/
def check_health (outcome : Except ReqException Nat) : Except ReqException Bool :=
  match outcome with
  | .ok status => if status = 200 then .ok true else .ok false
  | .error e => if isConnectionErr e then .ok false else .error e

/-! ## Index provisioner -/

/-- Lines 30-48, `create_index`: the message printed for the status code
of the creation response (`respText` is `response.text`).  The function
returns `None` in Python regardless of the status; nothing here aborts
the caller. -/
def create_index (status : Nat) (respText : String) : String :=
  if status = 200 then "Index created successfully."
  else if status = 409 then "Index likely already exists."
  else "Failed to create index: " ++ respText

/-! ## Ingestion pipeline -/

/-- A vector record as built at lines 76-82: `{"id": str(current_id),
"vector": embedding}`. -/
structure VecObj where
  id : String
  vector : List ℚ
deriving DecidableEq

/-- Python `line.strip()` (line 67): drop leading and trailing
whitespace.  Implemented over the character list so that it reduces in
the kernel; the whitespace set is `Char.isWhitespace` (space, tab, CR,
LF), which covers every character the claims exercise. -/
def pyStrip (s : String) : String :=
  String.mk ((((s.data.dropWhile Char.isWhitespace).reverse).dropWhile
    Char.isWhitespace).reverse)

/-- Lines 66-90: process the lines of one file starting from identifier
`startId`.  Each line is stripped; a blank line is skipped (no
identifier, no embedding); otherwise a `VecObj` is accumulated, the line
`"{id}|{text}"` is appended to `id_map.txt`, and the identifier counter
advances.  Returns (vectors, appended id-map lines, next identifier). -/
def processLines (encode : String → List ℚ) (lines : List String) (startId : ℕ) :
    List VecObj × List String × ℕ :=
  match lines with
  | [] => ([], [], startId)
  | line :: rest =>
      let text := pyStrip line
      if text = "" then processLines encode rest startId
      else
        let r := processLines encode rest (startId + 1)
        (⟨toString startId, encode text⟩ :: r.1,
         (toString startId ++ "|" ++ text) :: r.2.1, r.2.2)

/-- Lines 61-90: process every file in enumeration order, the identifier
counter continuing across files. -/
def processFiles (encode : String → List ℚ) (files : List (List String)) (startId : ℕ) :
    List VecObj × List String × ℕ :=
  match files with
  | [] => ([], [], startId)
  | f :: rest =>
      let a := processLines encode f startId
      let b := processFiles encode rest a.2.2
      (a.1 ++ b.1, a.2.1 ++ b.2.1, b.2.2)

/-- Python `range(0, len, step)` for `step = chunk_size` (line 100). -/
def chunkStarts (len step : ℕ) : List ℕ :=
  (List.range ((len + step - 1) / step)).map (· * step)

/-- The effect of the batch-insert loop, lines 96-109: the count in the
`"Inserting {len(vectors)} vectors..."` message printed before any
request (line 97) — the only vector count the run ever reports — and the
submitted chunks with the status each insert request returned. -/
structure InsertRun where
  announced : ℕ
  submissions : List (ℕ × List VecObj × ℕ)
deriving DecidableEq

/-- Lines 98-109: split `vectors` into chunks of 100 by slicing
(`vectors[i:i+chunk_size]`) and POST every chunk in order.  `status i`
is the HTTP status the insert request for the chunk starting at `i`
comes back with; a non-200 status only changes the printed message
(line 109), the loop continues unconditionally. -/
def insertVectors (vectors : List VecObj) (status : ℕ → ℕ) : InsertRun :=
  { announced := vectors.length
    submissions := (chunkStarts vectors.length 100).map
      (fun i => (i, (vectors.drop i).take 100, status i)) }

/-- Outcome of `ingest_data` (lines 50-109): no eligible files (early
return, line 54-56), files but no non-blank line (line 92-94), or a run
with the id-map lines written and the insert-loop effect. -/
inductive IngestOutcome where
  | noFiles
  | noData (store : List String)
  | run (store : List String) (ins : InsertRun)
deriving DecidableEq

/-- Lines 50-109, `ingest_data`, with the file contents and the per-chunk
insert statuses passed explicitly. -/
def ingest_data (encode : String → List ℚ) (files : List (List String))
    (insertStatus : ℕ → ℕ) : IngestOutcome :=
  if files.isEmpty then .noFiles
  else
    let r := processFiles encode files 0
    if r.1.isEmpty then .noData r.2.1
    else .run r.2.1 (insertVectors r.1 insertStatus)

/-- The `id_map.txt` contents after `ingest_data` ran on a store that
`main` just cleared: only the lines the run itself appended. -/
def storeAfter : IngestOutcome → List String
  | .noFiles => []
  | .noData s => s
  | .run s _ => s

/-- What the ingest branch of `main` records: the `create_index` message
and the `ingest_data` outcome. -/
structure IngestCmdResult where
  createMsg : String
  outcome : IngestOutcome
deriving DecidableEq

/-- Lines 198-204, the `ingest` branch of `main`: if the health probe
succeeds, call `create_index` (whatever status it gets back, execution
continues), delete `id_map.txt` if it exists, then run `ingest_data`.
Returns the per-branch record (`none` when health failed and nothing
ran) and the `id_map.txt` contents afterwards (`prevStore` is its
contents before the command). -/
def ingestCommand (health : Bool) (createStatus : ℕ) (createText : String)
    (prevStore : List String) (encode : String → List ℚ)
    (files : List (List String)) (insertStatus : ℕ → ℕ) :
    Option IngestCmdResult × List String :=
  if health then
    let out := ingest_data encode files insertStatus
    (some ⟨create_index createStatus createText, out⟩, storeAfter out)
  else (none, prevStore)

/-! ## Search pipeline -/

/-- The outcome of the search POST (line 121): a raised exception, or a
response with its status code, `response.text`, the result of
`msgpack.unpackb(response.content)` (`.error` when unpacking raises) and
`len(response.content)`. -/
inductive PostOutcome where
  | exc (e : ReqException)
  | resp (status : ℕ) (respText : String) (unpacked : Except String MP) (rawSize : ℕ)

/-- What `search` (lines 111-188) does, observably: the POST exception
propagating uncaught past `search`, the "Search failed" early return
(line 124), the decoded per-hit outcomes, or the `except` branch at
lines 186-188 reporting the error with `len(response.content)`. -/
inductive SearchOutcome where
  | uncaught (e : ReqException)
  | failedStatus (respText : String)
  | results (hits : List HitOutcome)
  | decodeError (rawSize : ℕ)

/-- Lines 111-188, `search`: the embedding of the query and the POST are
summarised by `post`; `idMap` is the dict loaded from `id_map.txt`.
`requests.post` is called outside any `try`, so an exception there is
uncaught; a non-200 status returns early; everything inside the `try`
block (unpacking and the whole result loop) reports `decodeError` with
the raw payload size when it raises. -/
def search (idMap : List (String × String)) (post : PostOutcome) : SearchOutcome :=
  match post with
  | .exc e => .uncaught e
  | .resp status respText unpacked rawSize =>
      if status ≠ 200 then .failedStatus respText
      else
        match unpacked with
        | .error _ => .decodeError rawSize
        | .ok v =>
            match decodeResults idMap v with
            | .ok outs => .results outs
            | .error _ => .decodeError rawSize

/-! ## CLI dispatch -/

/-- The sub-effect the dispatched command produced. -/
inductive CliEffect where
  | noEffect
  | ingested (res : Option IngestCmdResult) (store : List String)
  | searched (out : SearchOutcome)
  | searchSkipped

/-- Observable result of `main` (lines 191-213): the dispatch-level
messages printed (sub-operation prints are not repeated here), the
process exit code (`sys.exit(1)` at lines 194 and 208; falling off the
end exits 0), whether any network request was issued (the first is
always `check_health`), and the command's effect. -/
structure CliRun where
  printed : List String
  exitCode : ℕ
  networkCalled : Bool
  effect : CliEffect

/-- The usage string printed at line 193. -/
def usageMsg : String := "Usage: python main.py [ingest|search <query>]"

/-- Lines 191-213, `main`: dispatch on `sys.argv`.  The environment of
the run (health-probe result, creation status, file contents, insert
statuses, loaded id-map, search POST outcome) is passed explicitly. -/
def mainDispatch (argv : List String) (health : Bool)
    (createStatus : ℕ) (createText : String) (prevStore : List String)
    (encode : String → List ℚ) (files : List (List String))
    (insertStatus : ℕ → ℕ) (idMap : List (String × String))
    (post : PostOutcome) : CliRun :=
  match argv with
  | [] => ⟨[usageMsg], 1, false, .noEffect⟩
  | [_] => ⟨[usageMsg], 1, false, .noEffect⟩
  | _ :: cmd :: rest =>
      if cmd = "ingest" then
        let r := ingestCommand health createStatus createText prevStore
          encode files insertStatus
        ⟨[], 0, true, .ingested r.1 r.2⟩
      else if cmd = "search" then
        match rest with
        | [] => ⟨["Please provide a query."], 1, false, .noEffect⟩
        | _ :: _ =>
            if health then ⟨[], 0, true, .searched (search idMap post)⟩
            else ⟨[], 0, true, .searchSkipped⟩
      else ⟨["Unknown command."], 0, false, .noEffect⟩

/-! ## Counting helpers for the ingestion claims -/

/-- Number of lines of a file that survive stripping (line 67-69): those
whose stripped text is non-empty. -/
def nonBlankCount (lines : List String) : ℕ :=
  (lines.filter (fun l => pyStrip l ≠ "")).length

/-- Total number of non-blank units over all files of a run. -/
def totalUnits (files : List (List String)) : ℕ :=
  (files.map nonBlankCount).sum

theorem nonBlankCount_cons_blank {l : String} (rest : List String)
    (h : pyStrip l = "") : nonBlankCount (l :: rest) = nonBlankCount rest := by
  simp [nonBlankCount, List.filter_cons, h]

theorem nonBlankCount_cons_text {l : String} (rest : List String)
    (h : ¬ pyStrip l = "") :
    nonBlankCount (l :: rest) = nonBlankCount rest + 1 := by
  simp [nonBlankCount, List.filter_cons, h]

theorem processLines_nextId (encode : String → List ℚ) (lines : List String) (n : ℕ) :
    (processLines encode lines n).2.2 = n + nonBlankCount lines := by
  induction lines generalizing n with
  | nil => simp [processLines, nonBlankCount]
  | cons l rest ih =>
      by_cases h : pyStrip l = ""
      · rw [nonBlankCount_cons_blank rest h]
        simpa [processLines, h] using ih n
      · rw [nonBlankCount_cons_text rest h]
        simp only [processLines, if_neg h]
        rw [ih (n + 1)]
        omega

theorem processLines_ids (encode : String → List ℚ) (lines : List String) (n : ℕ) :
    ((processLines encode lines n).1.map VecObj.id) =
      (List.range' n (nonBlankCount lines)).map toString := by
  induction lines generalizing n with
  | nil => simp [processLines, nonBlankCount]
  | cons l rest ih =>
      by_cases h : pyStrip l = ""
      · rw [nonBlankCount_cons_blank rest h]
        simpa [processLines, h] using ih n
      · rw [nonBlankCount_cons_text rest h, List.range'_succ]
        simp only [processLines, if_neg h, List.map_cons]
        exact congrArg (toString n :: ·) (ih (n + 1))

theorem processFiles_nextId (encode : String → List ℚ) (files : List (List String)) (n : ℕ) :
    (processFiles encode files n).2.2 = n + totalUnits files := by
  induction files generalizing n with
  | nil => simp [processFiles, totalUnits]
  | cons f rest ih =>
      show (processFiles encode rest (processLines encode f n).2.2).2.2 = _
      rw [ih, processLines_nextId]
      simp [totalUnits]
      omega

theorem range'_add_append (a b c : ℕ) :
    List.range' a b ++ List.range' (a + b) c = List.range' a (b + c) := by
  have h := List.range'_append a b c 1
  simp only [one_mul] at h
  rw [Nat.add_comm b c]
  exact h

theorem processFiles_ids (encode : String → List ℚ) (files : List (List String)) (n : ℕ) :
    ((processFiles encode files n).1.map VecObj.id) =
      (List.range' n (totalUnits files)).map toString := by
  induction files generalizing n with
  | nil => simp [processFiles, totalUnits]
  | cons f rest ih =>
      have ht : totalUnits (f :: rest) = nonBlankCount f + totalUnits rest := by
        simp [totalUnits]
      rw [ht, ← range'_add_append n (nonBlankCount f) (totalUnits rest)]
      show ((processLines encode f n).1 ++
        (processFiles encode rest (processLines encode f n).2.2).1).map VecObj.id = _
      rw [List.map_append, List.map_append, processLines_ids, ih,
        processLines_nextId]

/-- **C5** (confirmed).  For every ingestion run, the identifiers assigned
to non-empty text units are exactly `"0", "1", ...` in order — a
contiguous sequence starting at 0 with no gaps or repeats, continuing
across files — and the `"Alpha"`, `""`, `"Beta"` file yields exactly the
id-map lines `0|Alpha` and `1|Beta`, the blank line consuming no
identifier. -/
theorem C5_identifiers_contiguous :
    (∀ (encode : String → List ℚ) (files : List (List String)),
        ((processFiles encode files 0).1.map VecObj.id) =
          (List.range (totalUnits files)).map toString) ∧
    processFiles (fun _ => []) [["Alpha", "", "Beta"]] 0 =
      ([⟨"0", []⟩, ⟨"1", []⟩], ["0|Alpha", "1|Beta"], 2) := by
  constructor
  · intro encode files
    rw [List.range_eq_range']
    exact processFiles_ids encode files 0
  · decide

theorem storeAfter_ingest (encode : String → List ℚ) (files : List (List String))
    (ins : ℕ → ℕ) :
    storeAfter (ingest_data encode files ins) = (processFiles encode files 0).2.1 := by
  match files with
  | [] => rfl
  | f :: rest =>
      unfold ingest_data
      simp only [List.isEmpty_cons, Bool.false_eq_true, if_false]
      split <;> rfl

/-- **C6** (confirmed).  Running ingestion twice leaves the Identifier
Map Store (`id_map.txt`) containing exactly the entries produced by the
second run: the ingest branch of `main` deletes the store before
`ingest_data` appends, so the resulting store depends only on the second
run's files — nothing of the first run (or of any earlier content of the
store) survives. -/
theorem C6_second_run_owns_store :
    ∀ (prevStore : List String) (encode : String → List ℚ)
      (files₁ files₂ : List (List String)) (s₁ s₂ : ℕ) (t₁ t₂ : String)
      (ins₁ ins₂ : ℕ → ℕ),
      (ingestCommand true s₂ t₂
          (ingestCommand true s₁ t₁ prevStore encode files₁ ins₁).2
          encode files₂ ins₂).2 =
        (processFiles encode files₂ 0).2.1 := by
  intros prevStore encode files₁ files₂ s₁ s₂ t₁ t₂ ins₁ ins₂
  show storeAfter (ingest_data encode files₂ ins₂) = _
  exact storeAfter_ingest encode files₂ ins₂

/-! ## Decoder claims -/

theorem pyStr_str (s : String) : pyStr (MP.str s) = s := rfl

theorem processHits_ok_pointwise (idMap : List (String × String)) :
    ∀ (xs : List MP) (ys : List HitOutcome), processHits idMap xs = .ok ys →
      ys.length = xs.length ∧
      ∀ i, (xs.get? i).bind (fun x => (processHit idMap x).toOption) = ys.get? i := by
  intro xs
  induction xs with
  | nil =>
      intro ys h
      cases h
      exact ⟨rfl, fun i => by cases i <;> rfl⟩
  | cons x xs ih =>
      intro ys h
      simp only [processHits] at h
      cases hfx : processHit idMap x with
      | error e => rw [hfx] at h; exact absurd h (by simp)
      | ok y =>
          rw [hfx] at h
          cases hrest : processHits idMap xs with
          | error e => rw [hrest] at h; exact absurd h (by simp)
          | ok ys₂ =>
              rw [hrest] at h
              cases h
              obtain ⟨hl, hp⟩ := ih ys₂ hrest
              refine ⟨by simp [hl], fun i => ?_⟩
              cases i with
              | zero => simp [hfx, Except.toOption]
              | succ j => simpa using hp j

/-- **C7** (confirmed).  The result decoder accepts both top-level
response shapes — an enveloped mapping whose `results` key holds the hit
sequence, and the bare hit sequence — and produces the same outcomes;
and decoding a hit sequence is pointwise and order-preserving: the i-th
output comes from the i-th hit, with no re-ranking or re-sorting. -/
theorem C7_envelope_and_order :
    (∀ (idMap : List (String × String)) (hits : List MP),
        decodeResults idMap (MP.dict [("results", MP.arr hits)]) =
          decodeResults idMap (MP.arr hits)) ∧
    (∀ (idMap : List (String × String)) (kvs : List (String × MP)) (hits : List MP),
        dictHas kvs "results" = true → dictGet kvs "results" = MP.arr hits →
        decodeResults idMap (MP.dict kvs) = decodeResults idMap (MP.arr hits)) ∧
    (∀ (idMap : List (String × String)) (hits : List MP) (outs : List HitOutcome),
        decodeResults idMap (MP.arr hits) = Except.ok outs →
        outs.length = hits.length ∧
        ∀ i, (hits.get? i).bind (fun h => (processHit idMap h).toOption) =
          outs.get? i) := by
  refine ⟨fun idMap hits => rfl, fun idMap kvs hits h1 h2 => ?_, fun idMap hits outs h => ?_⟩
  · have hu : unwrapResults (MP.dict kvs) = MP.arr hits := by
      simp [unwrapResults, h1, h2]
    unfold decodeResults
    rw [hu]
    rfl
  · exact processHits_ok_pointwise idMap hits outs h

theorem C7_envelope_and_order_witness :
    decodeResults [] (MP.dict [("took", MP.int 1),
        ("results", MP.arr [MP.arr [MP.float (mkRat 1 1), MP.int 4]])]) =
      decodeResults [] (MP.arr [MP.arr [MP.float (mkRat 1 1), MP.int 4]]) ∧
    ([MP.arr [MP.float (mkRat 1 1), MP.int 4]].get? 0).bind
        (fun h => (processHit [] h).toOption) =
      [HitOutcome.resolved "4" (MP.float (mkRat 1 1)) "Unknown Content"].get? 0 :=
  ⟨C7_envelope_and_order.2.1 []
      [("took", MP.int 1), ("results", MP.arr [MP.arr [MP.float (mkRat 1 1), MP.int 4]])]
      [MP.arr [MP.float (mkRat 1 1), MP.int 4]] rfl rfl,
   (C7_envelope_and_order.2.2 [] [MP.arr [MP.float (mkRat 1 1), MP.int 4]]
      [HitOutcome.resolved "4" (MP.float (mkRat 1 1)) "Unknown Content"] rfl).2 0⟩

/-- **C10** (confirmed).  For a mapping hit whose `id` holds a falsy
value (`0`, `""`, `None`), the `or`-based fallback skips it and falls
through to `label`; with no truthy `label` the hit has no resolvable
identifier and is reported as an unparsed raw result — never resolved to
identifier `"0"`.  Likewise a `distance` of exactly `0.0` falls through
to the `score` key. -/
theorem C10_falsy_fallback :
    processHit [] (MP.dict [("id", MP.int 0), ("distance", MP.float (mkRat 3 25))]) =
      .ok (.rawUnparsed (MP.dict [("id", MP.int 0), ("distance", MP.float (mkRat 3 25))])) ∧
    processHit [] (MP.dict [("id", MP.str ""), ("distance", MP.float (mkRat 3 25))]) =
      .ok (.rawUnparsed (MP.dict [("id", MP.str ""), ("distance", MP.float (mkRat 3 25))])) ∧
    processHit [] (MP.dict [("id", MP.nil), ("distance", MP.float (mkRat 3 25))]) =
      .ok (.rawUnparsed (MP.dict [("id", MP.nil), ("distance", MP.float (mkRat 3 25))])) ∧
    processHit [] (MP.dict [("id", MP.int 0), ("label", MP.str "9")]) =
      .ok (.resolved "9" MP.nil "Unknown Content") ∧
    processHit [] (MP.dict [("id", MP.str "7"), ("distance", MP.float (mkRat 0 1)),
        ("score", MP.float (mkRat 1 2))]) =
      .ok (.resolved "7" (MP.float (mkRat 1 2)) "Unknown Content") ∧
    (∀ (idMap : List (String × String)) (kvs : List (String × MP)),
        truthy (dictGet kvs "id") = false → truthy (dictGet kvs "label") = false →
        processHit idMap (MP.dict kvs) = .ok (.rawUnparsed (MP.dict kvs))) := by
  refine ⟨rfl, rfl, rfl, rfl, rfl, fun idMap kvs h1 h2 => ?_⟩
  simp [processHit, finishHit, pyOr, h1, h2]

theorem C10_falsy_fallback_witness :
    processHit [] (MP.dict [("id", MP.int 0), ("score", MP.float (mkRat 1 2))]) =
      .ok (.rawUnparsed (MP.dict [("id", MP.int 0), ("score", MP.float (mkRat 1 2))])) :=
  C10_falsy_fallback.2.2.2.2.2 [] [("id", MP.int 0), ("score", MP.float (mkRat 1 2))]
    rfl rfl

/-- The mapping-hit score rule exactly as the claim words it: read the
`score` key, falling back to a `distance` key.  This is the spec's
wording to compare against `processHit`, which follows line 173 of the
source (`res.get('distance') or res.get('score')`), i.e. the opposite
priority. -/
def claimScoreOfMapping (kvs : List (String × MP)) : MP :=
  pyOr (dictGet kvs "score") (dictGet kvs "distance")

/-- **C1** (refuted as stated).  On the hit
`{"id": "7", "score": 0.5, "distance": 0.12}` the claim's rule (`score`
with fallback to `distance`) yields `0.5`, but the code resolves the
score to `0.12`: line 173 reads `distance` first and falls back to
`score`, the reverse of the claim's order. -/
theorem C1_counterexample :
    processHit [] (MP.dict [("id", MP.str "7"), ("score", MP.float (mkRat 1 2)),
        ("distance", MP.float (mkRat 3 25))]) =
      .ok (.resolved "7" (MP.float (mkRat 3 25)) "Unknown Content") ∧
    claimScoreOfMapping [("id", MP.str "7"), ("score", MP.float (mkRat 1 2)),
        ("distance", MP.float (mkRat 3 25))] = MP.float (mkRat 1 2) ∧
    MP.float (mkRat 1 2) ≠ MP.float (mkRat 3 25) := by
  refine ⟨rfl, rfl, fun h => ?_⟩
  injection h with h
  exact absurd h (by decide)

/-- **C1** (amended).  For a mapping hit the decoder reads `id` with
fallback to `label`, and reads `distance` with fallback to `score` (not
the other way around); for a positional hit, position 0 is the score,
position 1 the identifier, and further positions are ignored.  The hits
`{"id": "7", "distance": 0.12}` and `[0.12, 7]` both resolve to
identifier `"7"` with score `0.12`. -/
theorem C1_amended_resolution :
    processHit [] (MP.dict [("id", MP.str "7"), ("distance", MP.float (mkRat 3 25))]) =
      .ok (.resolved "7" (MP.float (mkRat 3 25)) "Unknown Content") ∧
    processHit [] (MP.arr [MP.float (mkRat 3 25), MP.int 7]) =
      .ok (.resolved "7" (MP.float (mkRat 3 25)) "Unknown Content") ∧
    processHit [] (MP.dict [("id", MP.str "7"), ("score", MP.float (mkRat 1 2)),
        ("distance", MP.float (mkRat 3 25))]) =
      .ok (.resolved "7" (MP.float (mkRat 3 25)) "Unknown Content") ∧
    processHit [] (MP.dict [("label", MP.str "7"), ("score", MP.float (mkRat 1 2))]) =
      .ok (.resolved "7" (MP.float (mkRat 1 2)) "Unknown Content") ∧
    (∀ (idMap : List (String × String)) (s i : MP) (rest : List MP),
        pyStr i ≠ "" →
        processHit idMap (MP.arr (s :: i :: rest)) =
          .ok (.resolved (pyStr i) s (idMapGet idMap (pyStr i)))) := by
  refine ⟨rfl, rfl, rfl, rfl, fun idMap s i rest h => ?_⟩
  have hne : (pyStr i).isEmpty = false := by
    cases hb : (pyStr i).isEmpty
    · rfl
    · exact absurd ((pyStr i).isEmpty_iff.mp hb) h
  simp [processHit, finishHit, truthy, hne, pyStr_str]

theorem C1_amended_resolution_witness :
    processHit [] (MP.arr [MP.float (mkRat 3 25), MP.int 7, MP.str "extra"]) =
      .ok (.resolved "7" (MP.float (mkRat 3 25)) "Unknown Content") :=
  C1_amended_resolution.2.2.2.2 [] (MP.float (mkRat 3 25)) (MP.int 7)
    [MP.str "extra"] (by decide)

/-! ## Health-probe claims -/

/-- **C2** (refuted as stated).  The claim says every transport failure —
including a timeout — returns `false` and never raises past the probe.
But `check_health` catches only `ConnectionError` (line 22): handed a
read timeout, the probe re-raises instead of returning `false`. -/
theorem C2_counterexample :
    check_health (.error .readTimeout) = .error .readTimeout ∧
    check_health (.error .readTimeout) ≠ .ok false :=
  ⟨rfl, fun h => Except.noConfusion h⟩

/-- **C2** (amended).  The probe returns `true` only on an explicit
HTTP 200; it returns `false` without raising on any non-success status
and on any failure in the `ConnectionError` family (connection refused,
DNS failure, connect-phase timeout); but a transport failure outside
that family — a read timeout, or any other request exception — raises
past the probe boundary. -/
theorem C2_amended_probe :
    (∀ outcome, check_health outcome = .ok true → outcome = .ok 200) ∧
    check_health (.ok 200) = .ok true ∧
    (∀ status, status ≠ 200 → check_health (.ok status) = .ok false) ∧
    (∀ e, isConnectionErr e = true → check_health (.error e) = .ok false) ∧
    check_health (.error .readTimeout) = .error .readTimeout ∧
    check_health (.error .otherRequestFailure) = .error .otherRequestFailure := by
  refine ⟨fun outcome h => ?_, rfl, fun status hs => ?_, fun e he => ?_, rfl, rfl⟩
  · match outcome with
    | .ok status =>
        by_cases hs : status = 200
        · rw [hs]
        · simp [check_health, hs] at h
    | .error e =>
        by_cases hc : isConnectionErr e = true
        · simp [check_health, hc] at h
        · simp [check_health, hc] at h
  · simp [check_health, hs]
  · simp [check_health, he]

theorem C2_amended_probe_witness :
    check_health (.ok 404) = .ok false ∧
    check_health (.error .dnsFailure) = .ok false :=
  ⟨C2_amended_probe.2.2.1 404 (by decide),
   C2_amended_probe.2.2.2.1 .dnsFailure rfl⟩

/-! ## Index-provisioning claims -/

/-- **C3** (refuted as stated).  The claim says a genuine creation
failure on a fresh index aborts ingestion.  On a fresh store with a
creation status of 500, `create_index` only prints the failure and
`main` proceeds: `ingest_data` still runs and submits its chunk — one
chunk is submitted, so ingestion was not aborted. -/
theorem C3_counterexample :
    (ingestCommand true 500 "boom" [] (fun _ => []) [["Alpha"]] (fun _ => 200)).1 =
      some ⟨"Failed to create index: boom",
        .run ["0|Alpha"] ⟨1, [(0, [⟨"0", []⟩], 200)]⟩⟩ ∧
    (match (ingestCommand true 500 "boom" [] (fun _ => []) [["Alpha"]]
        (fun _ => 200)).1 with
     | some r => match r.outcome with
        | .run _ ins => ins.submissions.length
        | _ => 0
     | none => 0) = 1 := by
  exact ⟨by decide, by decide⟩

/-- **C3** (amended).  A 409 conflict is reported as the success-like
"Index likely already exists." and ingestion proceeds; but no creation
status is ever fatal: `create_index` returns nothing, `main` never
inspects the outcome, and the ingest command proceeds to `ingest_data`
with the identical result for every creation status — even a genuine
creation failure on a fresh index. -/
theorem C3_amended_provisioning :
    (∀ t, create_index 409 t = "Index likely already exists.") ∧
    (∀ (createStatus : ℕ) (t : String) (prev : List String)
        (encode : String → List ℚ) (files : List (List String)) (ins : ℕ → ℕ),
        (ingestCommand true createStatus t prev encode files ins).1 =
          some ⟨create_index createStatus t, ingest_data encode files ins⟩ ∧
        (ingestCommand true createStatus t prev encode files ins).2 =
          storeAfter (ingest_data encode files ins)) :=
  ⟨fun _ => rfl, fun _ _ _ _ _ _ => ⟨rfl, rfl⟩⟩

/-! ## Chunk-insertion claims -/

theorem chunkStarts_zero (step : ℕ) : chunkStarts 0 step = [] := by
  unfold chunkStarts
  have h : (0 + step - 1) / step = 0 := by
    cases step with
    | zero => rfl
    | succ k => exact Nat.div_eq_of_lt (by omega)
  rw [h]
  rfl

theorem chunkStarts_pos (len step : ℕ) (hl : 0 < len) (hs : 0 < step) :
    chunkStarts len step = 0 :: (chunkStarts (len - step) step).map (· + step) := by
  unfold chunkStarts
  have hcount : (len + step - 1) / step = (len - step + step - 1) / step + 1 := by
    rcases Nat.le_total len step with h | h
    · have h1 : len - step = 0 := by omega
      have h2 : (len + step - 1) / step = 1 := by
        apply Nat.div_eq_of_lt_le
        · omega
        · omega
      rw [h1, h2]
      have h3 : (0 + step - 1) / step = 0 := by
        cases step with
        | zero => rfl
        | succ k => exact Nat.div_eq_of_lt (by omega)
      rw [h3]
    · have h4 : len + step - 1 = (len - step + step - 1) + step := by omega
      rw [h4, Nat.add_div_right _ hs]
  rw [hcount, List.range_succ_eq_map]
  simp only [List.map_cons, Nat.zero_mul, List.map_map]
  congr 1
  apply List.map_congr_left
  intro i _
  simp [Function.comp, Nat.succ_mul]

theorem chunks_flatten {α : Type} (step : ℕ) (hs : 0 < step) :
    ∀ (fuel : ℕ) (l : List α), l.length ≤ fuel →
      ((chunkStarts l.length step).map (fun i => (l.drop i).take step)).flatten = l := by
  intro fuel
  induction fuel with
  | zero =>
      intro l hl
      have h0 : l = [] := List.length_eq_zero.mp (Nat.le_zero.mp hl)
      subst h0
      simp [chunkStarts_zero]
  | succ n ih =>
      intro l hl
      rcases l with _ | ⟨x, xs⟩
      · simp [chunkStarts_zero]
      · rw [chunkStarts_pos _ step (by simp) hs]
        simp only [List.map_cons, List.drop_zero, List.map_map, List.flatten_cons]
        have hc : ((fun i => (List.drop i (x :: xs)).take step) ∘ (· + step)) =
            fun i => (((x :: xs).drop step).drop i).take step := by
          funext i
          simp [Function.comp, List.drop_drop, Nat.add_comm]
        rw [hc]
        have hlen : ((x :: xs).drop step).length = (x :: xs).length - step :=
          List.length_drop step (x :: xs)
        have hle : ((x :: xs).drop step).length ≤ n := by
          rw [hlen]
          simp only [List.length_cons] at hl ⊢
          omega
        have := ih ((x :: xs).drop step) hle
        rw [hlen] at this
        rw [this]
        exact List.take_append_drop step (x :: xs)

/-- The final count the claim says the run reports: the number of
vectors belonging to successfully submitted chunks only.  This follows
the claim's words; the code itself reports no such count. -/
def specSuccessfulCount (r : InsertRun) : ℕ :=
  ((r.submissions.filter (fun s => s.2.2 = 200)).map (fun s => s.2.1.length)).sum

set_option maxRecDepth 10000 in
/-- **C4** (refuted as stated).  With 250 vectors — three chunks of 100,
100 and 50 — and the middle insert answered 500, the only count the run
reports is the upfront "Inserting 250 vectors..." total, which includes
the failed chunk's vectors; it is not the 150 vectors of the successful
chunks the claim says the final count reflects. -/
theorem C4_counterexample :
    (insertVectors (List.replicate 250 ⟨"", []⟩)
        (fun i => if i = 100 then 500 else 200)).announced = 250 ∧
    specSuccessfulCount (insertVectors (List.replicate 250 ⟨"", []⟩)
        (fun i => if i = 100 then 500 else 200)) = 150 ∧
    (250 : ℕ) ≠ 150 :=
  ⟨by decide, by decide, by decide⟩

/-- **C4** (amended).  Chunk insertion is best-effort: the chunks
submitted are the same, in the same order, whatever statuses come back —
a failed chunk never stops the loop, and the submitted chunks
concatenate back to the whole vector list.  The count the run reports is
`vectors.length`, announced before submission, regardless of failures;
no final success-only count is reported. -/
theorem C4_amended_best_effort :
    (∀ (vectors : List VecObj) (status : ℕ → ℕ),
        (insertVectors vectors status).announced = vectors.length) ∧
    (∀ (vectors : List VecObj) (status₁ status₂ : ℕ → ℕ),
        (insertVectors vectors status₁).submissions.map (fun s => (s.1, s.2.1)) =
          (insertVectors vectors status₂).submissions.map (fun s => (s.1, s.2.1))) ∧
    (∀ (vectors : List VecObj) (status : ℕ → ℕ),
        ((insertVectors vectors status).submissions.map
          (fun s => s.2.1)).flatten = vectors) := by
  refine ⟨fun v s => rfl, fun v s₁ s₂ => by simp [insertVectors, List.map_map],
    fun v s => ?_⟩
  have h := chunks_flatten 100 (by decide) v.length v (le_refl _)
  simp only [insertVectors, List.map_map]
  simpa [Function.comp] using h

/-! ## Search-boundary claims -/

/-- **C8** (refuted as stated).  The claim says the search operation
never raises past its boundary.  But the search POST (line 121) sits
outside any `try`: a connection error raised there propagates uncaught
past `search` (`SearchOutcome.uncaught` models the exception escaping
the search boundary). -/
theorem C8_counterexample :
    search [] (.exc .connectionRefused) = .uncaught .connectionRefused := rfl

/-- **C8** (amended).  Once a response arrives, nothing raises past the
search boundary: a non-200 status is reported as a search failure, and
any unpacking or decoding failure is caught and reported with the raw
payload size.  But an exception raised by the search request itself
propagates uncaught. -/
theorem C8_amended_boundary :
    (∀ (idMap : List (String × String)) (status : ℕ) (text : String)
        (unpacked : Except String MP) (rawSize : ℕ) (e : ReqException),
        search idMap (.resp status text unpacked rawSize) ≠ .uncaught e) ∧
    (∀ (idMap : List (String × String)) (text : String) (rawSize : ℕ) (msg : String),
        search idMap (.resp 200 text (.error msg) rawSize) = .decodeError rawSize) ∧
    (∀ (idMap : List (String × String)) (text : String) (rawSize : ℕ) (v : MP)
        (msg : String), decodeResults idMap v = .error msg →
        search idMap (.resp 200 text (.ok v) rawSize) = .decodeError rawSize) ∧
    (∀ (idMap : List (String × String)) (status : ℕ) (text : String)
        (unpacked : Except String MP) (rawSize : ℕ), status ≠ 200 →
        search idMap (.resp status text unpacked rawSize) = .failedStatus text) ∧
    (∀ (idMap : List (String × String)) (e : ReqException),
        search idMap (.exc e) = .uncaught e) := by
  refine ⟨fun idMap status text unpacked rawSize e => ?_,
    fun idMap text rawSize msg => rfl,
    fun idMap text rawSize v msg h => by simp [search, h],
    fun idMap status text unpacked rawSize h => by simp [search, h],
    fun idMap e => rfl⟩
  by_cases hs : status = 200
  · subst hs
    match unpacked with
    | .error m => simp [search]
    | .ok v =>
        match hd : decodeResults idMap v with
        | .error m => simp [search, hd]
        | .ok outs => simp [search, hd]
  · simp [search, hs]

theorem C8_amended_boundary_witness :
    search [] (.resp 200 "" (.ok (MP.int 3)) 17) = .decodeError 17 ∧
    search [] (.resp 500 "internal error" (.ok (MP.arr [])) 9) =
      .failedStatus "internal error" :=
  ⟨C8_amended_boundary.2.2.1 [] "" 17 (MP.int 3) "TypeError: not iterable" rfl,
   C8_amended_boundary.2.2.2.1 [] 500 "internal error" (.ok (MP.arr [])) 9
     (by decide)⟩

/-! ## CLI-dispatch claims -/

/-- **C9** (refuted as stated).  The claim says an unknown command
prints usage and exits non-zero.  On `python main.py frobnicate` the
code prints only "Unknown command." (not the usage string) and `main`
falls off the end — the process exits 0. -/
theorem C9_counterexample :
    (mainDispatch ["main.py", "frobnicate"] true 200 "" [] (fun _ => []) []
        (fun _ => 200) [] (.exc .connectionRefused)).exitCode = 0 ∧
    (mainDispatch ["main.py", "frobnicate"] true 200 "" [] (fun _ => []) []
        (fun _ => 200) [] (.exc .connectionRefused)).printed =
      ["Unknown command."] ∧
    "Unknown command." ≠ usageMsg :=
  ⟨rfl, rfl, by decide⟩

/-- **C9** (amended).  An unknown command prints "Unknown command."
(not the usage text) and exits 0, issuing no network call; the part of
the claim about a missing query holds: `search` with no query text
prints "Please provide a query." and exits 1 before any network call is
made. -/
theorem C9_amended_cli :
    (∀ (a cmd : String) (rest : List String) (health : Bool) (cs : ℕ) (ct : String)
        (prev : List String) (encode : String → List ℚ)
        (files : List (List String)) (ins : ℕ → ℕ)
        (idMap : List (String × String)) (post : PostOutcome),
        cmd ≠ "ingest" → cmd ≠ "search" →
        (mainDispatch (a :: cmd :: rest) health cs ct prev encode files ins
            idMap post).printed = ["Unknown command."] ∧
        (mainDispatch (a :: cmd :: rest) health cs ct prev encode files ins
            idMap post).exitCode = 0 ∧
        (mainDispatch (a :: cmd :: rest) health cs ct prev encode files ins
            idMap post).networkCalled = false) ∧
    (∀ (a : String) (health : Bool) (cs : ℕ) (ct : String) (prev : List String)
        (encode : String → List ℚ) (files : List (List String)) (ins : ℕ → ℕ)
        (idMap : List (String × String)) (post : PostOutcome),
        (mainDispatch [a, "search"] health cs ct prev encode files ins
            idMap post).printed = ["Please provide a query."] ∧
        (mainDispatch [a, "search"] health cs ct prev encode files ins
            idMap post).exitCode = 1 ∧
        (mainDispatch [a, "search"] health cs ct prev encode files ins
            idMap post).networkCalled = false) := by
  constructor
  · intro a cmd rest health cs ct prev encode files ins idMap post h1 h2
    refine ⟨?_, ?_, ?_⟩ <;> simp [mainDispatch, h1, h2]
  · intro a health cs ct prev encode files ins idMap post
    exact ⟨rfl, rfl, rfl⟩

theorem C9_amended_cli_witness :
    (mainDispatch ["main.py", "bogus"] false 0 "" [] (fun _ => []) []
        (fun _ => 0) [] (.exc .readTimeout)).printed = ["Unknown command."] ∧
    (mainDispatch ["main.py", "bogus"] false 0 "" [] (fun _ => []) []
        (fun _ => 0) [] (.exc .readTimeout)).exitCode = 0 ∧
    (mainDispatch ["main.py", "bogus"] false 0 "" [] (fun _ => []) []
        (fun _ => 0) [] (.exc .readTimeout)).networkCalled = false :=
  C9_amended_cli.1 "main.py" "bogus" [] false 0 "" [] (fun _ => []) []
    (fun _ => 0) [] (.exc .readTimeout) (by decide) (by decide)

end Endee
